import Mathlib

/-!
# Verification of the ECS Fargate deployment program

A shallow embedding, in Lean 4, of the Pulumi deployment program in
`main.go` of the repository (a Go program that declares an AWS resource
graph: default-VPC lookup, security group, ECS cluster, task-execution
role, load-balancer pipeline, ECR repository, Docker image push with
decoded registry credentials, task definition, and Fargate service).

Go byte strings are modelled as `List Char` (one `Char` per byte for the
byte-level operations: base64 decoding produces bytes, which Go converts
to a string without validation; we render each byte as the `Char` of its
code point).  Fallible operations return `Option`/`Except`.
-/

namespace EcsFargate

/-- A Go string, modelled byte-by-byte as a list of characters. -/
abbrev Str := List Char

/-! ## Base64 decoding (Go `base64.StdEncoding.DecodeString`)

Faithful model of the standard Go base64 decoder as used by
`pushImageAndGetContainerDef`: standard alphabet, mandatory `=` padding,
input processed in 4-character quanta, carriage returns and newlines
ignored, any other out-of-alphabet character or bad padding is a decode
error (`none`). -/

/-- Value of one character of the standard base64 alphabet. -/
def b64Val (c : Char) : Option Nat :=
  if 'A' ≤ c ∧ c ≤ 'Z' then some (c.toNat - 65)
  else if 'a' ≤ c ∧ c ≤ 'z' then some (c.toNat - 97 + 26)
  else if '0' ≤ c ∧ c ≤ '9' then some (c.toNat - 48 + 52)
  else if c = '+' then some 62
  else if c = '/' then some 63
  else none

/-- Decode a base64 input (newlines already stripped) in 4-character
quanta.  The final quantum may carry `=` padding for 1 or 2 bytes. -/
def base64DecodeCore : Str → Option Str
  | [] => some []
  | a :: b :: c :: d :: rest =>
    match b64Val a, b64Val b with
    | some va, some vb =>
      let byte1 := Char.ofNat ((va * 4 + vb / 16) % 256)
      if c = '=' then
        if d = '=' ∧ rest = [] then some [byte1] else none
      else
        match b64Val c with
        | some vc =>
          let byte2 := Char.ofNat ((vb % 16 * 16 + vc / 4) % 256)
          if d = '=' then
            if rest = [] then some [byte1, byte2] else none
          else
            match b64Val d with
            | some vd =>
              let byte3 := Char.ofNat ((vc % 4 * 64 + vd) % 256)
              (base64DecodeCore rest).map fun t => byte1 :: byte2 :: byte3 :: t
            | none => none
        | none => none
    | _, _ => none
  | _ => none

/-- `base64.StdEncoding.DecodeString`: `\r` and `\n` are ignored; the
remainder must be well-formed padded base64. -/
def base64Decode (s : Str) : Option Str :=
  base64DecodeCore (s.filter fun c => !(c == '\r' || c == '\n'))

/-! ## Colon splitting (Go `strings.Split(s, ":")`) and Pulumi `Index` -/

/-- Go `strings.Split` with a single-character separator: splits around
every occurrence of `sep`; the empty string yields `[[]]` (one empty
part), `n` separators yield `n + 1` parts. -/
def splitGo (sep : Char) : Str → List Str
  | [] => [[]]
  | c :: rest =>
    if c = sep then [] :: splitGo sep rest
    else
      match splitGo sep rest with
      | [] => [[c]]
      | h :: t => (c :: h) :: t

/-- Pulumi's generated `StringArrayOutput.Index`: out-of-range access
yields the zero value (the empty string), not an error. -/
def outputIndex (xs : List Str) (i : Nat) : Str := xs.getD i []

/-! ## The credential-decoding step of `pushImageAndGetContainerDef`

The Go code maps the repository's registry id to
`strings.Split(string(base64Decode(creds.AuthorizationToken)), ":")`
(propagating a base64 decode error), then takes `Index 0` as the
registry username and `Index 1` as the password.  `none` models the
propagated decode error that aborts the deployment at realization. -/

/-- The decoded credential parts: base64-decode the authorization token
and split the result on `':'`.  `none` is the propagated decode error. -/
def repoCredsParts (authorizationToken : Str) : Option (List Str) :=
  (base64Decode authorizationToken).map fun data => splitGo ':' data

/-- The `(repoUser, repoPass)` pair fed to the Docker image push:
indices 0 and 1 of the decoded credential parts. -/
def repoUserPass (authorizationToken : Str) : Option (Str × Str) :=
  (repoCredsParts authorizationToken).map fun creds =>
    (outputIndex creds 0, outputIndex creds 1)

/-! ### Lemmas about `splitGo` -/

theorem splitGo_ne_nil (sep : Char) (s : Str) : splitGo sep s ≠ [] := by
  cases s with
  | nil => simp [splitGo]
  | cons c rest =>
    simp only [splitGo]
    split
    · simp
    · split
      · simp
      · simp

theorem splitGo_no_sep {sep : Char} {s : Str} (h : sep ∉ s) :
    splitGo sep s = [s] := by
  induction s with
  | nil => rfl
  | cons c rest ih =>
    simp only [List.mem_cons, not_or] at h
    simp only [splitGo, if_neg (Ne.symm h.1), ih h.2]

theorem splitGo_append {sep : Char} {u : Str} (h : sep ∉ u) (p : Str) :
    splitGo sep (u ++ sep :: p) = u :: splitGo sep p := by
  induction u with
  | nil => simp [splitGo]
  | cons c rest ih =>
    simp only [List.mem_cons, not_or] at h
    simp only [List.cons_append, splitGo, if_neg (Ne.symm h.1), List.append_eq, ih h.2]

/-! ## Go `%q` quoting (`fmt.Sprintf("%q", name)` / `strconv.Quote`)

The container-definition document embeds the pushed image reference
through the `%q` verb, which emits a double-quoted Go string literal
with every quote and backslash escaped.  The model is ASCII-exact; a
non-ASCII character is emitted as a `\u`/`\U` escape (Go additionally
prints printable non-ASCII runes literally — both forms are free of raw
quotes and of stray backslashes, which is all the theorems below use). -/

/-- One lower-case hexadecimal digit (used by Go's escape sequences). -/
def hexDig (n : Nat) : Char :=
  if n < 10 then Char.ofNat (48 + n) else Char.ofNat (87 + n)

/-- Two hex digits of a byte value. -/
def hexDigits2 (n : Nat) : Str := [hexDig (n / 16 % 16), hexDig (n % 16)]

/-- Four hex digits of a 16-bit value. -/
def hexDigits4 (n : Nat) : Str := hexDigits2 (n / 256) ++ hexDigits2 (n % 256)

/-- Eight hex digits of a 32-bit value. -/
def hexDigits8 (n : Nat) : Str := hexDigits4 (n / 65536) ++ hexDigits4 (n % 65536)

/-- Go `%q` escaping of a single character: quotes and backslashes get a
backslash, printable ASCII is literal, the named control escapes are
used where they exist, anything else becomes a hex escape. -/
def goQuoteChar (c : Char) : Str :=
  if c = '"' ∨ c = '\\' then ['\\', c]
  else if 0x20 ≤ c.toNat ∧ c.toNat ≤ 0x7E then [c]
  else if c = '\x07' then ['\\', 'a']
  else if c = '\x08' then ['\\', 'b']
  else if c = '\x0C' then ['\\', 'f']
  else if c = '\n' then ['\\', 'n']
  else if c = '\r' then ['\\', 'r']
  else if c = '\t' then ['\\', 't']
  else if c = '\x0B' then ['\\', 'v']
  else if c.toNat < 0x20 ∨ c.toNat = 0x7F then '\\' :: 'x' :: hexDigits2 c.toNat
  else if c.toNat < 0x10000 then '\\' :: 'u' :: hexDigits4 c.toNat
  else '\\' :: 'U' :: hexDigits8 c.toNat

/-- The escaped body of a Go `%q` literal. -/
def goQuoteInner : Str → Str
  | [] => []
  | c :: rest => goQuoteChar c ++ goQuoteInner rest

/-- Go `%q`: a double-quoted literal around the escaped body. -/
def goQuote (s : Str) : Str := '"' :: goQuoteInner s ++ ['"']

/-! ## Reading a quoted string literal back out of the document

`scanRaw` consumes the raw characters of a quoted-string body up to the
first unescaped `"` (a backslash always consumes the character after
it); `unescape` undoes Go escaping; `scanQuoted` combines the two.
These are the observers with which the theorems inspect the generated
container-definition document. -/

/-- Scan a quoted-string body up to the first unescaped `"`; return the
raw body and the text after the closing quote. -/
def scanRaw : Str → Option (Str × Str)
  | [] => none
  | c :: rest =>
    if c = '"' then some ([], rest)
    else if c = '\\' then
      match rest with
      | [] => none
      | e :: rest2 => (scanRaw rest2).map fun p => ('\\' :: e :: p.1, p.2)
    else (scanRaw rest).map fun p => (c :: p.1, p.2)

/-- Value of a single hexadecimal digit. -/
def hexVal (c : Char) : Option Nat :=
  if '0' ≤ c ∧ c ≤ '9' then some (c.toNat - 48)
  else if 'a' ≤ c ∧ c ≤ 'f' then some (c.toNat - 97 + 10)
  else if 'A' ≤ c ∧ c ≤ 'F' then some (c.toNat - 65 + 10)
  else none

/-- Value of two hexadecimal digits. -/
def hexVal2 (a b : Char) : Option Nat :=
  match hexVal a, hexVal b with
  | some x, some y => some (16 * x + y)
  | _, _ => none

/-- Value of four hexadecimal digits. -/
def hexVal4 (a b c d : Char) : Option Nat :=
  match hexVal2 a b, hexVal2 c d with
  | some x, some y => some (256 * x + y)
  | _, _ => none

/-- Value of eight hexadecimal digits. -/
def hexVal8 (a b c d e f g h : Char) : Option Nat :=
  match hexVal4 a b c d, hexVal4 e f g h with
  | some x, some y => some (65536 * x + y)
  | _, _ => none

/-- The single-character Go escapes. -/
def unescapeChar (e : Char) : Option Char :=
  if e = 'a' then some '\x07'
  else if e = 'b' then some '\x08'
  else if e = 'f' then some '\x0C'
  else if e = 'n' then some '\n'
  else if e = 'r' then some '\r'
  else if e = 't' then some '\t'
  else if e = 'v' then some '\x0B'
  else if e = '\\' then some '\\'
  else if e = '\'' then some '\''
  else if e = '"' then some '"'
  else none

/-- Undo Go escaping on a raw quoted-string body. -/
def unescape : Str → Option Str
  | [] => some []
  | '\\' :: 'x' :: h1 :: h2 :: rest =>
    match hexVal2 h1 h2 with
    | some v => (unescape rest).map fun t => Char.ofNat v :: t
    | none => none
  | '\\' :: 'u' :: h1 :: h2 :: h3 :: h4 :: rest =>
    match hexVal4 h1 h2 h3 h4 with
    | some v => (unescape rest).map fun t => Char.ofNat v :: t
    | none => none
  | '\\' :: 'U' :: h1 :: h2 :: h3 :: h4 :: h5 :: h6 :: h7 :: h8 :: rest =>
    match hexVal8 h1 h2 h3 h4 h5 h6 h7 h8 with
    | some v => (unescape rest).map fun t => Char.ofNat v :: t
    | none => none
  | '\\' :: e :: rest =>
    match unescapeChar e with
    | some u => (unescape rest).map fun t => u :: t
    | none => none
  | c :: rest => (unescape rest).map fun t => c :: t

/-- Read one complete quoted string literal: expect `"`, scan to the
matching unescaped `"`, unescape the body. -/
def scanQuoted (l : Str) : Option (Str × Str) :=
  match l with
  | [] => none
  | c :: body =>
    if c = '"' then
      match scanRaw body with
      | some (raw, rest) => (unescape raw).map fun s => (s, rest)
      | none => none
    else none

/-! ### Quoting round-trip lemmas -/

theorem hexDig_spec {d : Nat} (h : d < 16) :
    hexVal (hexDig d) = some d ∧ hexDig d ≠ '"' ∧ hexDig d ≠ '\\' := by
  interval_cases d <;> refine ⟨by decide, by decide, by decide⟩

theorem scanRaw_quote (rest : Str) : scanRaw ('"' :: rest) = some ([], rest) := by
  rw [scanRaw.eq_def]; simp

theorem scanRaw_cons {c : Char} (hq : c ≠ '"') (hb : c ≠ '\\') (l : Str) :
    scanRaw (c :: l) = (scanRaw l).map fun p => (c :: p.1, p.2) := by
  rw [scanRaw.eq_def]; simp [hq, hb]

theorem scanRaw_esc (e : Char) (l : Str) :
    scanRaw ('\\' :: e :: l) = (scanRaw l).map fun p => ('\\' :: e :: p.1, p.2) := by
  rw [scanRaw.eq_def]; simp

/-- Characters free of raw quotes and backslashes are transparent to the
raw scanner. -/
theorem scanRaw_append_safe {u : Str} (h : ∀ x ∈ u, x ≠ '"' ∧ x ≠ '\\')
    (l : Str) :
    scanRaw (u ++ l) = (scanRaw l).map fun p => (u ++ p.1, p.2) := by
  induction u with
  | nil => cases hl : scanRaw l <;> simp [hl]
  | cons c rest ih =>
    have hc := h c (by simp)
    have hr : ∀ x ∈ rest, x ≠ '"' ∧ x ≠ '\\' := fun x hx => h x (by simp [hx])
    rw [List.cons_append, scanRaw_cons hc.1 hc.2, ih hr]
    cases hl : scanRaw l <;> simp [hl]

/-- A backslash escape with a safe tail is transparent to the raw scanner. -/
theorem scanRaw_esc_safe (e : Char) (tail : Str)
    (h : ∀ x ∈ tail, x ≠ '"' ∧ x ≠ '\\') (l : Str) :
    scanRaw ('\\' :: e :: (tail ++ l))
      = (scanRaw l).map fun p => ('\\' :: e :: (tail ++ p.1), p.2) := by
  rw [scanRaw_esc, scanRaw_append_safe h]
  cases hl : scanRaw l <;> simp [hl]

theorem hexDigits2_safe (n : Nat) : ∀ x ∈ hexDigits2 n, x ≠ '"' ∧ x ≠ '\\' := by
  intro x hx
  simp only [hexDigits2, List.mem_cons, List.not_mem_nil, or_false] at hx
  rcases hx with h | h <;> subst h <;>
    exact ⟨(hexDig_spec (Nat.mod_lt _ (by decide))).2.1,
           (hexDig_spec (Nat.mod_lt _ (by decide))).2.2⟩

theorem hexDigits4_safe (n : Nat) : ∀ x ∈ hexDigits4 n, x ≠ '"' ∧ x ≠ '\\' := by
  intro x hx
  simp only [hexDigits4, List.mem_append] at hx
  rcases hx with h | h <;> exact hexDigits2_safe _ x h

theorem hexDigits8_safe (n : Nat) : ∀ x ∈ hexDigits8 n, x ≠ '"' ∧ x ≠ '\\' := by
  intro x hx
  simp only [hexDigits8, List.mem_append] at hx
  rcases hx with h | h <;> exact hexDigits4_safe _ x h

/-- Shape of one `%q`-escaped character: either a single safe literal
character, or a backslash escape whose tail is free of raw quotes and
backslashes. -/
theorem goQuoteChar_shape (c : Char) :
    (goQuoteChar c = [c] ∧ c ≠ '"' ∧ c ≠ '\\') ∨
    ∃ e tail, goQuoteChar c = '\\' :: e :: tail ∧
      ∀ x ∈ tail, x ≠ '"' ∧ x ≠ '\\' := by
  by_cases hA : c = '"' ∨ c = '\\'
  · exact Or.inr ⟨c, [], by simp [goQuoteChar, hA], by simp⟩
  by_cases hB : 0x20 ≤ c.toNat ∧ c.toNat ≤ 0x7E
  · rw [not_or] at hA
    exact Or.inl ⟨by simp [goQuoteChar, hA, hB], hA⟩
  by_cases hC : c = '\x07'
  · exact Or.inr ⟨'a', [], by simp [goQuoteChar, hA, hB, hC], by simp⟩
  by_cases hD : c = '\x08'
  · exact Or.inr ⟨'b', [], by simp [goQuoteChar, hA, hB, hC, hD], by simp⟩
  by_cases hE : c = '\x0C'
  · exact Or.inr ⟨'f', [], by simp [goQuoteChar, hA, hB, hC, hD, hE], by simp⟩
  by_cases hF : c = '\n'
  · exact Or.inr ⟨'n', [], by simp [goQuoteChar, hA, hB, hC, hD, hE, hF], by simp⟩
  by_cases hG : c = '\r'
  · exact Or.inr ⟨'r', [], by simp [goQuoteChar, hA, hB, hC, hD, hE, hF, hG], by simp⟩
  by_cases hH : c = '\t'
  · exact Or.inr
      ⟨'t', [], by simp [goQuoteChar, hA, hB, hC, hD, hE, hF, hG, hH], by simp⟩
  by_cases hI : c = '\x0B'
  · exact Or.inr
      ⟨'v', [], by simp [goQuoteChar, hA, hB, hC, hD, hE, hF, hG, hH, hI], by simp⟩
  by_cases hJ : c.toNat < 0x20 ∨ c.toNat = 0x7F
  · exact Or.inr ⟨'x', hexDigits2 c.toNat,
      by simp [goQuoteChar, hA, hB, hC, hD, hE, hF, hG, hH, hI, hJ],
      hexDigits2_safe _⟩
  by_cases hK : c.toNat < 0x10000
  · exact Or.inr ⟨'u', hexDigits4 c.toNat,
      by simp [goQuoteChar, hA, hB, hC, hD, hE, hF, hG, hH, hI, hJ, hK],
      hexDigits4_safe _⟩
  · exact Or.inr ⟨'U', hexDigits8 c.toNat,
      by simp [goQuoteChar, hA, hB, hC, hD, hE, hF, hG, hH, hI, hJ, hK],
      hexDigits8_safe _⟩

/-- A `%q`-escaped character is transparent to the raw scanner: it never
contains the unescaped quote that ends the scan. -/
theorem scanRaw_goQuoteChar (c : Char) (l : Str) :
    scanRaw (goQuoteChar c ++ l)
      = (scanRaw l).map fun p => (goQuoteChar c ++ p.1, p.2) := by
  rcases goQuoteChar_shape c with ⟨h, hq, hb⟩ | ⟨e, tail, h, htail⟩
  · rw [h]
    simpa using scanRaw_cons hq hb l
  · rw [h]
    simpa using scanRaw_esc_safe e tail htail l

/-- The escaped body of a `%q` literal scans to itself: the closing
quote found by the scanner is the template's, never one smuggled in by
the quoted string. -/
theorem scanRaw_goQuoteInner (s rest : Str) :
    scanRaw (goQuoteInner s ++ '"' :: rest) = some (goQuoteInner s, rest) := by
  induction s with
  | nil => simp [goQuoteInner, scanRaw_quote]
  | cons c s' ih =>
    rw [goQuoteInner, List.append_assoc, scanRaw_goQuoteChar, ih]
    simp

/-! ### Unescaping round-trip lemmas -/

set_option maxHeartbeats 1600000 in
theorem unescape_cons_safe {c : Char} (h : c ≠ '\\') (l : Str) :
    unescape (c :: l) = (unescape l).map fun t => c :: t := by
  rw [unescape.eq_def]; simp [h]

set_option maxHeartbeats 1600000 in
theorem unescape_esc_named {e u : Char} (hx : e ≠ 'x') (hu' : e ≠ 'u')
    (hU : e ≠ 'U') (hu : unescapeChar e = some u) (l : Str) :
    unescape ('\\' :: e :: l) = (unescape l).map fun t => u :: t := by
  rw [unescape.eq_def]; simp [hx, hu', hU, hu]

set_option maxHeartbeats 1600000 in
theorem unescape_esc_x {h1 h2 : Char} {v : Nat} (hv : hexVal2 h1 h2 = some v)
    (l : Str) :
    unescape ('\\' :: 'x' :: h1 :: h2 :: l)
      = (unescape l).map fun t => Char.ofNat v :: t := by
  rw [unescape.eq_def]; simp [hv]

set_option maxHeartbeats 1600000 in
theorem unescape_esc_u {h1 h2 h3 h4 : Char} {v : Nat}
    (hv : hexVal4 h1 h2 h3 h4 = some v) (l : Str) :
    unescape ('\\' :: 'u' :: h1 :: h2 :: h3 :: h4 :: l)
      = (unescape l).map fun t => Char.ofNat v :: t := by
  rw [unescape.eq_def]; simp [hv]

set_option maxHeartbeats 1600000 in
theorem unescape_esc_U {h1 h2 h3 h4 h5 h6 h7 h8 : Char} {v : Nat}
    (hv : hexVal8 h1 h2 h3 h4 h5 h6 h7 h8 = some v) (l : Str) :
    unescape ('\\' :: 'U' :: h1 :: h2 :: h3 :: h4 :: h5 :: h6 :: h7 :: h8 :: l)
      = (unescape l).map fun t => Char.ofNat v :: t := by
  rw [unescape.eq_def]; simp [hv]

theorem hexVal2_hexDigits (n : Nat) :
    hexVal2 (hexDig (n / 16 % 16)) (hexDig (n % 16)) = some (n % 256) := by
  have h1 : n / 16 % 16 < 16 := Nat.mod_lt _ (by decide)
  have h2 : n % 16 < 16 := Nat.mod_lt _ (by decide)
  simp only [hexVal2, (hexDig_spec h1).1, (hexDig_spec h2).1,
    Option.some.injEq]
  omega

theorem hexVal4_hexDigits (n : Nat) :
    hexVal4 (hexDig (n / 256 / 16 % 16)) (hexDig (n / 256 % 16))
        (hexDig (n % 256 / 16 % 16)) (hexDig (n % 256 % 16))
      = some (n % 65536) := by
  simp only [hexVal4, hexVal2_hexDigits, Option.some.injEq]
  omega

theorem hexVal8_hexDigits (n : Nat) :
    hexVal8 (hexDig (n / 65536 / 256 / 16 % 16)) (hexDig (n / 65536 / 256 % 16))
        (hexDig (n / 65536 % 256 / 16 % 16)) (hexDig (n / 65536 % 256 % 16))
        (hexDig (n % 65536 / 256 / 16 % 16)) (hexDig (n % 65536 / 256 % 16))
        (hexDig (n % 65536 % 256 / 16 % 16)) (hexDig (n % 65536 % 256 % 16))
      = some (n % 4294967296) := by
  simp only [hexVal8, hexVal4_hexDigits, Option.some.injEq]
  omega

theorem char_toNat_lt (c : Char) : c.toNat < 1114112 := by
  rcases c.valid with h | ⟨_, h⟩
  · exact Nat.lt_trans h (by decide)
  · exact h

/-- Unescaping a `%q`-escaped character recovers exactly that character. -/
theorem unescape_goQuoteChar (c : Char) (l : Str) :
    unescape (goQuoteChar c ++ l) = (unescape l).map fun t => c :: t := by
  by_cases hA : c = '"' ∨ c = '\\'
  · have hgq : goQuoteChar c = ['\\', c] := by simp [goQuoteChar, hA]
    rcases hA with h | h <;> subst h
    · simpa [hgq] using unescape_esc_named (e := '"') (u := '"')
        (by decide) (by decide) (by decide) (by decide) l
    · simpa [hgq] using unescape_esc_named (e := '\\') (u := '\\')
        (by decide) (by decide) (by decide) (by decide) l
  by_cases hB : 0x20 ≤ c.toNat ∧ c.toNat ≤ 0x7E
  · rw [not_or] at hA
    have hgq : goQuoteChar c = [c] := by simp [goQuoteChar, hA.1, hA.2, hB]
    simpa [hgq] using unescape_cons_safe hA.2 l
  by_cases hC : c = '\x07'
  · have hgq : goQuoteChar c = ['\\', 'a'] := by
      simp [goQuoteChar, hA, hB, hC]
    subst hC
    simpa [hgq] using unescape_esc_named (by decide) (by decide) (by decide)
      (show unescapeChar 'a' = some '\x07' by decide) l
  by_cases hD : c = '\x08'
  · have hgq : goQuoteChar c = ['\\', 'b'] := by
      simp [goQuoteChar, hA, hB, hC, hD]
    subst hD
    simpa [hgq] using unescape_esc_named (by decide) (by decide) (by decide)
      (show unescapeChar 'b' = some '\x08' by decide) l
  by_cases hE : c = '\x0C'
  · have hgq : goQuoteChar c = ['\\', 'f'] := by
      simp [goQuoteChar, hA, hB, hC, hD, hE]
    subst hE
    simpa [hgq] using unescape_esc_named (by decide) (by decide) (by decide)
      (show unescapeChar 'f' = some '\x0C' by decide) l
  by_cases hF : c = '\n'
  · have hgq : goQuoteChar c = ['\\', 'n'] := by
      simp [goQuoteChar, hA, hB, hC, hD, hE, hF]
    subst hF
    simpa [hgq] using unescape_esc_named (by decide) (by decide) (by decide)
      (show unescapeChar 'n' = some '\n' by decide) l
  by_cases hG : c = '\r'
  · have hgq : goQuoteChar c = ['\\', 'r'] := by
      simp [goQuoteChar, hA, hB, hC, hD, hE, hF, hG]
    subst hG
    simpa [hgq] using unescape_esc_named (by decide) (by decide) (by decide)
      (show unescapeChar 'r' = some '\r' by decide) l
  by_cases hH : c = '\t'
  · have hgq : goQuoteChar c = ['\\', 't'] := by
      simp [goQuoteChar, hA, hB, hC, hD, hE, hF, hG, hH]
    subst hH
    simpa [hgq] using unescape_esc_named (by decide) (by decide) (by decide)
      (show unescapeChar 't' = some '\t' by decide) l
  by_cases hI : c = '\x0B'
  · have hgq : goQuoteChar c = ['\\', 'v'] := by
      simp [goQuoteChar, hA, hB, hC, hD, hE, hF, hG, hH, hI]
    subst hI
    simpa [hgq] using unescape_esc_named (by decide) (by decide) (by decide)
      (show unescapeChar 'v' = some '\x0B' by decide) l
  by_cases hJ : c.toNat < 0x20 ∨ c.toNat = 0x7F
  · have hgq : goQuoteChar c = '\\' :: 'x' :: hexDigits2 c.toNat := by
      simp [goQuoteChar, hA, hB, hC, hD, hE, hF, hG, hH, hI, hJ]
    have hmod : c.toNat % 256 = c.toNat := Nat.mod_eq_of_lt (by omega)
    have := unescape_esc_x (hexVal2_hexDigits c.toNat) l
    rw [hmod, Char.ofNat_toNat] at this
    simpa [hgq, hexDigits2] using this
  by_cases hK : c.toNat < 0x10000
  · have hgq : goQuoteChar c = '\\' :: 'u' :: hexDigits4 c.toNat := by
      simp [goQuoteChar, hA, hB, hC, hD, hE, hF, hG, hH, hI, hJ, hK]
    have hmod : c.toNat % 65536 = c.toNat := Nat.mod_eq_of_lt (by omega)
    have := unescape_esc_u (hexVal4_hexDigits c.toNat) l
    rw [hmod, Char.ofNat_toNat] at this
    simpa [hgq, hexDigits4, hexDigits2] using this
  · have hgq : goQuoteChar c = '\\' :: 'U' :: hexDigits8 c.toNat := by
      simp [goQuoteChar, hA, hB, hC, hD, hE, hF, hG, hH, hI, hJ, hK]
    have hlt := char_toNat_lt c
    have hmod : c.toNat % 4294967296 = c.toNat := Nat.mod_eq_of_lt (by omega)
    have := unescape_esc_U (hexVal8_hexDigits c.toNat) l
    rw [hmod, Char.ofNat_toNat] at this
    simpa [hgq, hexDigits8, hexDigits4, hexDigits2] using this

/-- Unescaping the escaped body of a `%q` literal recovers the original
string. -/
theorem unescape_goQuoteInner (s : Str) :
    unescape (goQuoteInner s) = some s := by
  induction s with
  | nil => simp [goQuoteInner, unescape]
  | cons c s' ih =>
    rw [goQuoteInner, unescape_goQuoteChar, ih]
    rfl

/-- Reading a full `%q` literal back yields the original string and the
untouched remainder of the document: the quoted value cannot break out
of its string literal. -/
theorem scanQuoted_goQuote (s rest : Str) :
    scanQuoted (goQuote s ++ rest) = some (s, rest) := by
  have hshape : goQuote s ++ rest = '"' :: (goQuoteInner s ++ '"' :: rest) := by
    simp [goQuote]
  rw [hshape, scanQuoted]
  simp [scanRaw_goQuoteInner, unescape_goQuoteInner]

/-! ## The container-definition document

`pushImageAndGetContainerDef` maps the pushed image's resolved name
through `fmt.Sprintf(fmtstr, name)` where `fmtstr` is a raw-string
template whose only verb is one `%q`.  `fmtstr` below is a byte-exact
copy of the Go literal (including its tab indentation); `{` and `}` are
written with the escapes `\x7b`/`\x7d`. -/

/-- The Go format-string literal of `pushImageAndGetContainerDef`. -/
def fmtstr : Str :=
  "[\x7b\n\t\t\t\t\"name\": \"my-app\",\n\t\t\t\t\"image\": %q,\n\t\t\t\t\"portMappings\": [\x7b\n\t\t\t\t\t\"containerPort\": 80,\n\t\t\t\t\t\"hostPort\": 80,\n\t\t\t\t\t\"protocol\": \"tcp\"\n\t\t\t\t\x7d]\n\t\t\t\x7d]".data

/-- `fmt.Sprintf` restricted to the shape the source uses: every `%q`
verb in the format string is replaced by the Go-quoted argument (the
source's format string contains exactly one). -/
def sprintfQ : Str → Str → Str
  | [], _ => []
  | '%' :: 'q' :: rest, arg => goQuote arg ++ sprintfQ rest arg
  | c :: rest, arg => c :: sprintfQ rest arg

/-- The container-definition document for a pushed image name. -/
def containerDef (name : Str) : Str := sprintfQ fmtstr name

/-- The template text before the `%q` verb. -/
def containerDefPre : Str :=
  "[\x7b\n\t\t\t\t\"name\": \"my-app\",\n\t\t\t\t\"image\": ".data

/-- The template text after the `%q` verb. -/
def containerDefPost : Str :=
  ",\n\t\t\t\t\"portMappings\": [\x7b\n\t\t\t\t\t\"containerPort\": 80,\n\t\t\t\t\t\"hostPort\": 80,\n\t\t\t\t\t\"protocol\": \"tcp\"\n\t\t\t\t\x7d]\n\t\t\t\x7d]".data

theorem containerDef_split (name : Str) :
    containerDef name = containerDefPre ++ (goQuote name ++ containerDefPost) :=
  rfl

/-! ### Observers for the generated document -/

/-- Return the text after the first occurrence of `pat`. -/
def afterPat (pat : Str) : Str → Option Str
  | [] => none
  | c :: rest =>
    if pat.isPrefixOf (c :: rest) then some (List.drop pat.length (c :: rest))
    else afterPat pat rest

/-- Decimal digits at the front of the text, as a number. -/
def readNatAux : Str → Nat → Nat
  | c :: rest, acc =>
    if '0' ≤ c ∧ c ≤ '9' then readNatAux rest (10 * acc + (c.toNat - 48))
    else acc
  | [], acc => acc

def readNat (l : Str) : Nat := readNatAux l 0

/-- The document's `name` field: the quoted string after the first
`"name": ` label. -/
def extractNameField (d : Str) : Option Str :=
  (afterPat "\"name\": ".data d).bind fun r => (scanQuoted r).map Prod.fst

/-- The document's `image` field: the quoted string after the first
`"image": ` label. -/
def extractImageField (d : Str) : Option Str :=
  (afterPat "\"image\": ".data d).bind fun r => (scanQuoted r).map Prod.fst

/-- The document's `containerPort` field, searched after the end of the
image string literal (scanning over the quoted image value first, so the
search cannot be confused by text inside the image reference). -/
def extractContainerPortField (d : Str) : Option Nat :=
  (afterPat "\"image\": ".data d).bind fun r =>
    (scanQuoted r).bind fun p =>
      (afterPat "\"containerPort\": ".data p.2).map readNat

/-- The document's `hostPort` field, searched like `containerPort`. -/
def extractHostPortField (d : Str) : Option Nat :=
  (afterPat "\"image\": ".data d).bind fun r =>
    (scanQuoted r).bind fun p =>
      (afterPat "\"hostPort\": ".data p.2).map readNat

/-! ### Extraction lemmas -/

/-- The `"name"` label occurs before the image value, so the name field
is fixed text, whatever the image. -/
theorem extractNameField_containerDef (image : Str) :
    extractNameField (containerDef image) = some "my-app".data := rfl

/-- The `"image": ` label's first occurrence is the real one: everything
before the image value is fixed template text. -/
theorem afterPat_image (image : Str) :
    afterPat "\"image\": ".data (containerDef image)
      = some (goQuote image ++ containerDefPost) := rfl

theorem extractImageField_containerDef (image : Str) :
    extractImageField (containerDef image) = some image := by
  rw [extractImageField, afterPat_image]
  simp [scanQuoted_goQuote]

theorem extractContainerPortField_containerDef (image : Str) :
    extractContainerPortField (containerDef image) = some 80 := by
  rw [extractContainerPortField, afterPat_image]
  simp only [Option.some_bind, scanQuoted_goQuote]
  rfl

theorem extractHostPortField_containerDef (image : Str) :
    extractHostPortField (containerDef image) = some 80 := by
  rw [extractHostPortField, afterPat_image]
  simp only [Option.some_bind, scanQuoted_goQuote]
  rfl

/-! ## Constants of `main.go` -/

def SecurityGroupName : Str := "web-sg".data
def EcsClusterName : Str := "app-cluster".data
def TaskExecRoleName : Str := "task-exec-role".data
def TaskExecPolicyName : Str := "task-exec-policy".data
def EcrRepositoryName : Str := "app-repo".data
def EcsTaskName : Str := "app-task".data
def EcsServiceName : Str := "app-service".data
def ContainerName : Str := "my-app".data
def ImageName : Str := "my-image".data
def LoadBalancerName : Str := "web-lb".data
def LoadBalancerTargetGroupName : Str := "web-tg".data
def LoadBalancerListenerName : Str := "web-listener".data
def ReplicasCount : Nat := 5

/-! ## Handles and argument records

One structure per provider argument struct used by `main.go`, with
exactly the fields the source sets; one handle structure per resource,
with exactly the output attributes the source reads. -/

structure LookupVpcResult where
  id : Str
deriving DecidableEq

structure GetSubnetIdsResult where
  ids : List Str
deriving DecidableEq

structure SecurityGroupIngressArgs where
  protocol : Str
  fromPort : Nat
  toPort : Nat
  cidrBlocks : List Str
deriving DecidableEq

structure SecurityGroupEgressArgs where
  protocol : Str
  fromPort : Nat
  toPort : Nat
  cidrBlocks : List Str
deriving DecidableEq

structure SecurityGroupArgs where
  vpcId : Str
  egress : List SecurityGroupEgressArgs
  ingress : List SecurityGroupIngressArgs
deriving DecidableEq

structure RoleArgs where
  assumeRolePolicy : Str
deriving DecidableEq

structure RolePolicyAttachmentArgs where
  role : Str
  policyArn : Str
deriving DecidableEq

structure LoadBalancerArgs where
  subnets : List Str
  securityGroups : List Str
deriving DecidableEq

structure TargetGroupArgs where
  port : Nat
  protocol : Str
  targetType : Str
  vpcId : Str
deriving DecidableEq

structure ListenerDefaultActionArgs where
  actionType : Str
  targetGroupArn : Str
deriving DecidableEq

structure ListenerArgs where
  loadBalancerArn : Str
  port : Nat
  defaultActions : List ListenerDefaultActionArgs
deriving DecidableEq

structure ImageArgs where
  buildContext : Str
  imageName : Str
  registryServer : Str
deriving DecidableEq

structure TaskDefinitionArgs where
  family : Str
  cpu : Str
  memory : Str
  networkMode : Str
  requiresCompatibilities : List Str
  executionRoleArn : Str
  containerDefinitions : Str
deriving DecidableEq

structure ServiceNetworkConfigurationArgs where
  assignPublicIp : Bool
  subnets : List Str
  securityGroups : List Str
deriving DecidableEq

structure ServiceLoadBalancerArgs where
  targetGroupArn : Str
  containerName : Str
  containerPort : Nat
deriving DecidableEq

structure ServiceArgs where
  cluster : Str
  desiredCount : Nat
  launchType : Str
  taskDefinition : Str
  networkConfiguration : ServiceNetworkConfigurationArgs
  loadBalancers : List ServiceLoadBalancerArgs
deriving DecidableEq

structure SecurityGroupH where
  id : Str
deriving DecidableEq

structure ClusterH where
  arn : Str
deriving DecidableEq

structure RoleH where
  arn : Str
  name : Str
deriving DecidableEq

structure LoadBalancerH where
  arn : Str
  dnsName : Str
deriving DecidableEq

structure TargetGroupH where
  arn : Str
deriving DecidableEq

structure ListenerH where
  arn : Str
deriving DecidableEq

structure RepositoryH where
  repositoryUrl : Str
  registryId : Str
deriving DecidableEq

structure ImageH where
  imageName : Str
deriving DecidableEq

structure TaskDefinitionH where
  arn : Str
deriving DecidableEq

/-! ## The argument builders of `main.go` -/

/-- `toPulumiStringArray`: the Go loop appends each element of the input
slice to a fresh slice. -/
def toPulumiStringArray (a : List Str) : List Str :=
  a.foldl (fun res s => res ++ [s]) []

/-- `getUnrestrictedEgress`: one egress rule, protocol `-1`, ports 0-0,
CIDR `0.0.0.0/0`. -/
def getUnrestrictedEgress : List SecurityGroupEgressArgs :=
  [{ protocol := "-1".data, fromPort := 0, toPort := 0,
     cidrBlocks := ["0.0.0.0/0".data] }]

/-- The argument record built by `newSecurityGroup`. -/
def securityGroupArgs (vpc : LookupVpcResult) : SecurityGroupArgs :=
  { vpcId := vpc.id
    egress := getUnrestrictedEgress
    ingress := [{ protocol := "tcp".data, fromPort := 80, toPort := 80,
                  cidrBlocks := ["0.0.0.0/0".data] }] }

/-- The role arguments of `newTaskExecRole` (assume-role policy copied
byte-exactly from the Go raw-string literal). -/
def taskExecRoleArgs : RoleArgs :=
  { assumeRolePolicy := "\x7b\n    \"Version\": \"2008-10-17\",\n    \"Statement\": [\x7b\n        \"Sid\": \"\",\n        \"Effect\": \"Allow\",\n        \"Principal\": \x7b\n            \"Service\": \"ecs-tasks.amazonaws.com\"\n        \x7d,\n        \"Action\": \"sts:AssumeRole\"\n    \x7d]\n\x7d".data }

/-- The attachment arguments of `newTaskExecRole`. -/
def taskExecPolicyAttachmentArgs (taskExecRole : RoleH) :
    RolePolicyAttachmentArgs :=
  { role := taskExecRole.name
    policyArn :=
      "arn:aws:iam::aws:policy/service-role/AmazonECSTaskExecutionRolePolicy".data }

/-- The load-balancer arguments built by `newLoadBalancer`. -/
def loadBalancerArgs (subnet : GetSubnetIdsResult) (webSg : SecurityGroupH) :
    LoadBalancerArgs :=
  { subnets := toPulumiStringArray subnet.ids
    securityGroups := [webSg.id] }

/-- The target-group arguments built by `newLoadBalancer`. -/
def targetGroupArgs (vpc : LookupVpcResult) : TargetGroupArgs :=
  { port := 80, protocol := "HTTP".data, targetType := "ip".data,
    vpcId := vpc.id }

/-- The listener arguments built by `newLoadBalancer`. -/
def listenerArgs (webLb : LoadBalancerH) (webTg : TargetGroupH) : ListenerArgs :=
  { loadBalancerArn := webLb.arn
    port := 80
    defaultActions := [{ actionType := "forward".data,
                         targetGroupArn := webTg.arn }] }

/-- The Docker image arguments of `pushImageAndGetContainerDef` (the
registry username and password are deferred outputs of the credential
step `repoUserPass`, not plain argument values). -/
def imageArgs (repo : RepositoryH) (dockerFilePath : Str) : ImageArgs :=
  { buildContext := dockerFilePath
    imageName := repo.repositoryUrl
    registryServer := repo.repositoryUrl }

/-- The task-definition arguments built in `main`. -/
def taskDefinitionArgs (taskExecRole : RoleH) (containerDefinitions : Str) :
    TaskDefinitionArgs :=
  { family := "fargate-task-definition".data
    cpu := "256".data
    memory := "512".data
    networkMode := "awsvpc".data
    requiresCompatibilities := ["FARGATE".data]
    executionRoleArn := taskExecRole.arn
    containerDefinitions := containerDefinitions }

/-- The service arguments built in `main`. -/
def serviceArgs (cluster : ClusterH) (appTask : TaskDefinitionH)
    (subnet : GetSubnetIdsResult) (securityGroup : SecurityGroupH)
    (targetGroup : TargetGroupH) : ServiceArgs :=
  { cluster := cluster.arn
    desiredCount := ReplicasCount
    launchType := "FARGATE".data
    taskDefinition := appTask.arn
    networkConfiguration :=
      { assignPublicIp := true
        subnets := toPulumiStringArray subnet.ids
        securityGroups := [securityGroup.id] }
    loadBalancers :=
      [{ targetGroupArn := targetGroup.arn
         containerName := ContainerName
         containerPort := 80 }] }

theorem toPulumiStringArray_eq (a : List Str) : toPulumiStringArray a = a := by
  have h : ∀ (xs : List Str) (init : List Str),
      xs.foldl (fun res s => res ++ [s]) init = init ++ xs := by
    intro xs
    induction xs with
    | nil => intro init; simp
    | cons x rest ih => intro init; simp [List.foldl_cons, ih]
  simpa using h a []

/-! ## The deployment pass

`Res` names the declarations of the pass (resources and the two data
source lookups).  `Env` carries the outcome the engine returns for each
declaration primitive; `deploy` mirrors `main`'s sequence of calls with
Go's `if err != nil { return err }` short-circuiting, and returns the
list of attempted declarations, in order, together with the outcome.
The last declaration is special: `main` assigns the error of
`ecs.NewService` to `err` but never checks it and unconditionally
returns `nil`, so a failing service declaration is swallowed — `deploy`
reproduces this.  The final `ctx.Export` declares no resource and is
not traced. -/

/-- The declarations of the deployment pass, in the vocabulary of
`main.go`. -/
inductive Res where
  | vpcLookup
  | securityGroup
  | cluster
  | taskExecRole
  | taskExecPolicy
  | subnetsLookup
  | loadBalancer
  | targetGroup
  | listener
  | repository
  | image
  | taskDefinition
  | service
deriving DecidableEq

/-- Outcomes of the engine's declaration primitives, one field per
provider call in `main.go` (a handle, or the error which the Go code
propagates with `return err`). -/
structure Env (E : Type) where
  ec2LookupVpc : Except E LookupVpcResult
  ec2NewSecurityGroup : SecurityGroupArgs → Except E SecurityGroupH
  ecsNewCluster : Except E ClusterH
  iamNewRole : RoleArgs → Except E RoleH
  iamNewRolePolicyAttachment : RolePolicyAttachmentArgs → Except E Unit
  ec2GetSubnetIds : Str → Except E GetSubnetIdsResult
  elbNewLoadBalancer : LoadBalancerArgs → Except E LoadBalancerH
  elbNewTargetGroup : TargetGroupArgs → Except E TargetGroupH
  elbNewListener : ListenerArgs → Except E ListenerH
  ecrNewRepository : Except E RepositoryH
  dockerNewImage : ImageArgs → Except E ImageH
  ecsNewTaskDefinition : TaskDefinitionArgs → Except E TaskDefinitionH
  ecsNewService : ServiceArgs → Except E Unit

/-- `getDefaultVPC`: the default-VPC lookup. -/
def getDefaultVPC {E : Type} (env : Env E) : Except E LookupVpcResult :=
  env.ec2LookupVpc

/-- `newSecurityGroup`: declares the security group for the VPC. -/
def newSecurityGroup {E : Type} (env : Env E) (vpc : LookupVpcResult) :
    Except E SecurityGroupH :=
  env.ec2NewSecurityGroup (securityGroupArgs vpc)

/-- `newTaskExecRole`: declares the role, then the policy attachment,
short-circuiting on the first error. -/
def newTaskExecRole {E : Type} (env : Env E) : List Res × Except E RoleH :=
  match env.iamNewRole taskExecRoleArgs with
  | .error e => ([.taskExecRole], .error e)
  | .ok taskExecRole =>
    match env.iamNewRolePolicyAttachment
        (taskExecPolicyAttachmentArgs taskExecRole) with
    | .error e => ([.taskExecRole, .taskExecPolicy], .error e)
    | .ok _ => ([.taskExecRole, .taskExecPolicy], .ok taskExecRole)

/-- `newLoadBalancer`: subnet lookup, then load balancer, target group
and listener, short-circuiting on the first error. -/
def newLoadBalancer {E : Type} (env : Env E) (vpc : LookupVpcResult)
    (webSg : SecurityGroupH) :
    List Res ×
      Except E (GetSubnetIdsResult × LoadBalancerH × TargetGroupH × ListenerH) :=
  match env.ec2GetSubnetIds vpc.id with
  | .error e => ([.subnetsLookup], .error e)
  | .ok subnet =>
    match env.elbNewLoadBalancer (loadBalancerArgs subnet webSg) with
    | .error e => ([.subnetsLookup, .loadBalancer], .error e)
    | .ok webLb =>
      match env.elbNewTargetGroup (targetGroupArgs vpc) with
      | .error e => ([.subnetsLookup, .loadBalancer, .targetGroup], .error e)
      | .ok webTg =>
        match env.elbNewListener (listenerArgs webLb webTg) with
        | .error e =>
          ([.subnetsLookup, .loadBalancer, .targetGroup, .listener], .error e)
        | .ok webListener =>
          ([.subnetsLookup, .loadBalancer, .targetGroup, .listener],
           .ok (subnet, webLb, webTg, webListener))

/-- `pushImageAndGetContainerDef`: declares the Docker image and derives
the container-definition document from the pushed image's name. -/
def pushImageAndGetContainerDef {E : Type} (env : Env E) (repo : RepositoryH)
    (dockerFilePath : Str) : List Res × Except E Str :=
  match env.dockerNewImage (imageArgs repo dockerFilePath) with
  | .error e => ([.image], .error e)
  | .ok image => ([.image], .ok (containerDef image.imageName))

/-- The deployment pass of `main`.  Every step up to and including the
task definition propagates its error with `return err`; the service
declaration's error is assigned to `err` but never checked (`_, err =
ecs.NewService(...)` is followed directly by `ctx.Export` and
`return nil`), so both of its outcomes end the pass with `nil`. -/
def deploy {E : Type} (env : Env E) : List Res × Except E Unit :=
  match getDefaultVPC env with
  | .error e => ([.vpcLookup], .error e)
  | .ok vpc =>
    match newSecurityGroup env vpc with
    | .error e => ([.vpcLookup, .securityGroup], .error e)
    | .ok securityGroup =>
      match env.ecsNewCluster with
      | .error e => ([.vpcLookup, .securityGroup, .cluster], .error e)
      | .ok cluster =>
        match newTaskExecRole env with
        | (log, .error e) =>
          ([.vpcLookup, .securityGroup, .cluster] ++ log, .error e)
        | (log, .ok taskExecRole) =>
          match newLoadBalancer env vpc securityGroup with
          | (log2, .error e) =>
            ([.vpcLookup, .securityGroup, .cluster] ++ log ++ log2, .error e)
          | (log2, .ok (subnet, _loadBalancer, targetGroup, _webListener)) =>
            match env.ecrNewRepository with
            | .error e =>
              ([.vpcLookup, .securityGroup, .cluster] ++ log ++ log2
                ++ [.repository], .error e)
            | .ok repo =>
              match pushImageAndGetContainerDef env repo "..".data with
              | (log3, .error e) =>
                ([.vpcLookup, .securityGroup, .cluster] ++ log ++ log2
                  ++ [.repository] ++ log3, .error e)
              | (log3, .ok containerDefDoc) =>
                match env.ecsNewTaskDefinition
                    (taskDefinitionArgs taskExecRole containerDefDoc) with
                | .error e =>
                  ([.vpcLookup, .securityGroup, .cluster] ++ log ++ log2
                    ++ [.repository] ++ log3 ++ [.taskDefinition], .error e)
                | .ok appTask =>
                  match env.ecsNewService
                      (serviceArgs cluster appTask subnet securityGroup
                        targetGroup) with
                  | .error _ =>
                    ([.vpcLookup, .securityGroup, .cluster] ++ log ++ log2
                      ++ [.repository] ++ log3 ++ [.taskDefinition, .service],
                     .ok ())
                  | .ok _ =>
                    ([.vpcLookup, .securityGroup, .cluster] ++ log ++ log2
                      ++ [.repository] ++ log3 ++ [.taskDefinition, .service],
                     .ok ())

/-! ## The dependency graph and realization schedules

The engine guarantees a resource is not realized until everything whose
outputs it references (data edges) and everything it is explicitly
ordered after (`pulumi.DependsOn`) has completed.  `dataDeps` records
the data edges exactly as wired in `main.go`; `explicitDeps` records the
single `pulumi.DependsOn` edge of the service declaration. -/

/-- Data-dependency edges: for each declaration, the declarations whose
outputs its inputs reference. -/
def dataDeps : Res → List Res
  | .vpcLookup => []
  | .securityGroup => [.vpcLookup]
  | .cluster => []
  | .taskExecRole => []
  | .taskExecPolicy => [.taskExecRole]
  | .subnetsLookup => [.vpcLookup]
  | .loadBalancer => [.subnetsLookup, .securityGroup]
  | .targetGroup => [.vpcLookup]
  | .listener => [.loadBalancer, .targetGroup]
  | .repository => []
  | .image => [.repository]
  | .taskDefinition => [.taskExecRole, .image]
  | .service => [.cluster, .taskDefinition, .subnetsLookup, .securityGroup,
                 .targetGroup]

/-- Explicit ordering edges: `ecs.NewService(..., pulumi.DependsOn([
webListener]))` is the only one. -/
def explicitDeps : Res → List Res
  | .service => [.listener]
  | _ => []

/-- All declarations of the pass, in source order. -/
def allResources : List Res :=
  [.vpcLookup, .securityGroup, .cluster, .taskExecRole, .taskExecPolicy,
   .subnetsLookup, .loadBalancer, .targetGroup, .listener, .repository,
   .image, .taskDefinition, .service]

/-- A realization order the engine may choose: every declaration occurs
exactly once, and each one comes after all of its data dependencies and
all of its explicit-ordering dependencies. -/
abbrev ValidSchedule (order : List Res) : Prop :=
  order.Nodup ∧ (∀ r ∈ allResources, r ∈ order) ∧
    ∀ r ∈ order,
      (∀ d ∈ dataDeps r, order.indexOf d < order.indexOf r) ∧
      (∀ d ∈ explicitDeps r, order.indexOf d < order.indexOf r)

/-! ## Claims C2 and C9: credential decoding -/

/-- Claim C2, counterexample: the token `base64("user:p1:p2")` decodes
to a string that splits into three parts, not two, yet the
credential-decoding step does not fail: it produces the pair
`("user", "p1")`.  This refutes the claim's second half ("any token …
whose decoding does not split on colons into exactly two parts … fails
with a DecodeError rather than producing a pair"). -/
theorem repoUserPass_not_two_parts_counterexample :
    base64Decode "dXNlcjpwMTpwMg==".data = some "user:p1:p2".data ∧
    (splitGo ':' "user:p1:p2".data).length ≠ 2 ∧
    repoUserPass "dXNlcjpwMTpwMg==".data = some ("user".data, "p1".data) := by
  refine ⟨by decide, by decide, by decide⟩

/-- Claim C2 (amended): for every valid base64 token of the form
`base64(user ++ ":" ++ pass)` with colon-free `user` and `pass`, the
credential-decoding step yields exactly `(user, pass)`; for a token
that is not valid base64 the step fails; and for any successfully
decoded token the step never fails: it yields parts 0 and 1 of the
colon split (the empty string when a part is missing), silently
ignoring any further parts. -/
theorem repoUserPass_spec (tok : Str) :
    (∀ u p : Str, ':' ∉ u → ':' ∉ p →
      base64Decode tok = some (u ++ ':' :: p) →
      repoUserPass tok = some (u, p)) ∧
    (base64Decode tok = none → repoUserPass tok = none) ∧
    (∀ data : Str, base64Decode tok = some data →
      repoUserPass tok =
        some (outputIndex (splitGo ':' data) 0,
              outputIndex (splitGo ':' data) 1)) := by
  refine ⟨?_, ?_, ?_⟩
  · intro u p hu hp h
    simp [repoUserPass, repoCredsParts, h, splitGo_append hu,
      splitGo_no_sep hp, outputIndex]
  · intro h
    simp [repoUserPass, repoCredsParts, h]
  · intro data h
    simp [repoUserPass, repoCredsParts, h]

/-- Witness for the amended claim C2, at the token `base64("user:pass")`. -/
theorem repoUserPass_spec_witness :
    base64Decode "dXNlcjpwYXNz".data = some ("user".data ++ ':' :: "pass".data) ∧
    repoUserPass "dXNlcjpwYXNz".data = some ("user".data, "pass".data) :=
  ⟨by decide, (repoUserPass_spec "dXNlcjpwYXNz".data).1 "user".data "pass".data
    (by decide) (by decide) (by decide)⟩

/-- Claim C9: a decoded credential token containing two or more colons
does not make the credential-decoding step fail: the username is the
segment before the first colon and the password is the segment between
the first and second colons; everything after the second colon is
silently discarded. -/
theorem repoUserPass_multi_colon (tok u p1 rest : Str)
    (hu : ':' ∉ u) (hp : ':' ∉ p1)
    (h : base64Decode tok = some (u ++ ':' :: (p1 ++ ':' :: rest))) :
    repoUserPass tok = some (u, p1) := by
  simp [repoUserPass, repoCredsParts, h, splitGo_append hu,
    splitGo_append hp, outputIndex]

/-- Witness for claim C9, at the token `base64("user:p1:p2")`. -/
theorem repoUserPass_multi_colon_witness :
    (':' ∉ "user".data) ∧ (':' ∉ "p1".data) ∧
    base64Decode "dXNlcjpwMTpwMg==".data
      = some ("user".data ++ ':' :: ("p1".data ++ ':' :: "p2".data)) ∧
    repoUserPass "dXNlcjpwMTpwMg==".data = some ("user".data, "p1".data) :=
  ⟨by decide, by decide, by decide,
    repoUserPass_multi_colon _ "user".data "p1".data "p2".data
      (by decide) (by decide) (by decide)⟩

/-! ## Spec-side structural view of the Container Definition Document

For the refinement claim C5 the spec's words ("a single-element sequence
whose one element …") are formalised by a second, spec-side structural
document and a renderer; the source-derived `containerDef` string is
proved equal to the rendering of that structure. -/

/-- Spec-side: one port mapping of the Container Definition Document. -/
structure PortMapping where
  containerPort : Nat
  hostPort : Nat
  protocol : Str
deriving DecidableEq

/-- Spec-side: one container spec of the Container Definition Document. -/
structure ContainerSpec where
  name : Str
  image : Str
  portMappings : List PortMapping
deriving DecidableEq

/-- Comma-joined rendering of a list. -/
def renderList {α : Type} (render : α → Str) (sep : Str) : List α → Str
  | [] => []
  | [x] => render x
  | x :: xs => render x ++ sep ++ renderList render sep xs

/-- Spec-side renderer: one port mapping, with the template's five-tab
indentation. -/
def renderPortMapping (m : PortMapping) : Str :=
  "\x7b\n\t\t\t\t\t\"containerPort\": ".data ++ (toString m.containerPort).data
    ++ ",\n\t\t\t\t\t\"hostPort\": ".data ++ (toString m.hostPort).data
    ++ ",\n\t\t\t\t\t\"protocol\": ".data ++ goQuote m.protocol
    ++ "\n\t\t\t\t\x7d".data

/-- Spec-side renderer: one container spec, with the template's four-tab
indentation. -/
def renderContainerSpec (s : ContainerSpec) : Str :=
  "\x7b\n\t\t\t\t\"name\": ".data ++ goQuote s.name
    ++ ",\n\t\t\t\t\"image\": ".data ++ goQuote s.image
    ++ ",\n\t\t\t\t\"portMappings\": [".data
    ++ renderList renderPortMapping ", ".data s.portMappings
    ++ "]\n\t\t\t\x7d".data

/-- Spec-side renderer: the whole document (a sequence of container
specs). -/
def renderContainerDefs (defs : List ContainerSpec) : Str :=
  "[".data ++ renderList renderContainerSpec ", ".data defs ++ "]".data

/-- Spec-side: the document content declared by the source — a single
container named `my-app` with the pushed image reference and one
80→80 TCP port mapping. -/
def specContainerDefs (image : Str) : List ContainerSpec :=
  [{ name := "my-app".data
     image := image
     portMappings := [{ containerPort := 80, hostPort := 80,
                        protocol := "tcp".data }] }]

theorem containerDef_renders_spec (image : Str) :
    containerDef image = renderContainerDefs (specContainerDefs image) := by
  rw [containerDef_split]
  simp only [renderContainerDefs, specContainerDefs, renderContainerSpec,
    renderPortMapping, renderList, List.append_assoc]
  generalize goQuote image = g
  rfl

/-! ## Claim C1: fail-fast error propagation -/

/-- For each guarded declaration step of the deployment pass (every step
up to and including the task definition), if that step fails (all
earlier steps having succeeded) then `deploy` returns exactly that
step's error and the declaration trace ends at the failing step: no
further resource is declared.  The service declaration is not guarded in
the source and is treated separately below. -/
theorem deploy_guarded_fail_fast {E : Type} (env : Env E) (e : E) :
    (env.ec2LookupVpc = .error e → deploy env = ([.vpcLookup], .error e)) ∧
    (∀ vpc, env.ec2LookupVpc = .ok vpc →
      env.ec2NewSecurityGroup (securityGroupArgs vpc) = .error e →
      deploy env = ([.vpcLookup, .securityGroup], .error e)) ∧
    (∀ vpc sg, env.ec2LookupVpc = .ok vpc →
      env.ec2NewSecurityGroup (securityGroupArgs vpc) = .ok sg →
      env.ecsNewCluster = .error e →
      deploy env = ([.vpcLookup, .securityGroup, .cluster], .error e)) ∧
    (∀ vpc sg cl log, env.ec2LookupVpc = .ok vpc →
      env.ec2NewSecurityGroup (securityGroupArgs vpc) = .ok sg →
      env.ecsNewCluster = .ok cl →
      newTaskExecRole env = (log, .error e) →
      deploy env = ([.vpcLookup, .securityGroup, .cluster] ++ log, .error e)) ∧
    (∀ vpc sg cl log role log2, env.ec2LookupVpc = .ok vpc →
      env.ec2NewSecurityGroup (securityGroupArgs vpc) = .ok sg →
      env.ecsNewCluster = .ok cl →
      newTaskExecRole env = (log, .ok role) →
      newLoadBalancer env vpc sg = (log2, .error e) →
      deploy env = ([.vpcLookup, .securityGroup, .cluster] ++ log ++ log2,
        .error e)) ∧
    (∀ vpc sg cl log role log2 lbres, env.ec2LookupVpc = .ok vpc →
      env.ec2NewSecurityGroup (securityGroupArgs vpc) = .ok sg →
      env.ecsNewCluster = .ok cl →
      newTaskExecRole env = (log, .ok role) →
      newLoadBalancer env vpc sg = (log2, .ok lbres) →
      env.ecrNewRepository = .error e →
      deploy env = ([.vpcLookup, .securityGroup, .cluster] ++ log ++ log2
        ++ [.repository], .error e)) ∧
    (∀ vpc sg cl log role log2 lbres repo log3, env.ec2LookupVpc = .ok vpc →
      env.ec2NewSecurityGroup (securityGroupArgs vpc) = .ok sg →
      env.ecsNewCluster = .ok cl →
      newTaskExecRole env = (log, .ok role) →
      newLoadBalancer env vpc sg = (log2, .ok lbres) →
      env.ecrNewRepository = .ok repo →
      pushImageAndGetContainerDef env repo "..".data = (log3, .error e) →
      deploy env = ([.vpcLookup, .securityGroup, .cluster] ++ log ++ log2
        ++ [.repository] ++ log3, .error e)) ∧
    (∀ vpc sg cl log role log2 lbres repo log3 cdef,
      env.ec2LookupVpc = .ok vpc →
      env.ec2NewSecurityGroup (securityGroupArgs vpc) = .ok sg →
      env.ecsNewCluster = .ok cl →
      newTaskExecRole env = (log, .ok role) →
      newLoadBalancer env vpc sg = (log2, .ok lbres) →
      env.ecrNewRepository = .ok repo →
      pushImageAndGetContainerDef env repo "..".data = (log3, .ok cdef) →
      env.ecsNewTaskDefinition (taskDefinitionArgs role cdef) = .error e →
      deploy env = ([.vpcLookup, .securityGroup, .cluster] ++ log ++ log2
        ++ [.repository] ++ log3 ++ [.taskDefinition], .error e)) := by
  refine ⟨?_, ?_, ?_, ?_, ?_, ?_, ?_, ?_⟩
  · intro h
    simp [deploy, getDefaultVPC, h]
  · intro vpc h1 h2
    simp [deploy, getDefaultVPC, newSecurityGroup, h1, h2]
  · intro vpc sg h1 h2 h3
    simp [deploy, getDefaultVPC, newSecurityGroup, h1, h2, h3]
  · intro vpc sg cl log h1 h2 h3 h4
    simp [deploy, getDefaultVPC, newSecurityGroup, h1, h2, h3, h4]
  · intro vpc sg cl log role log2 h1 h2 h3 h4 h5
    simp [deploy, getDefaultVPC, newSecurityGroup, h1, h2, h3, h4, h5]
  · intro vpc sg cl log role log2 lbres h1 h2 h3 h4 h5 h6
    obtain ⟨subnet, lb, tg, listener⟩ := lbres
    simp [deploy, getDefaultVPC, newSecurityGroup, h1, h2, h3, h4, h5, h6]
  · intro vpc sg cl log role log2 lbres repo log3 h1 h2 h3 h4 h5 h6 h7
    obtain ⟨subnet, lb, tg, listener⟩ := lbres
    simp [deploy, getDefaultVPC, newSecurityGroup, h1, h2, h3, h4, h5, h6, h7]
  · intro vpc sg cl log role log2 lbres repo log3 cdef h1 h2 h3 h4 h5 h6 h7 h8
    obtain ⟨subnet, lb, tg, listener⟩ := lbres
    simp [deploy, getDefaultVPC, newSecurityGroup,
      h1, h2, h3, h4, h5, h6, h7, h8]

/-- A concrete engine environment in which every declaration succeeds
except the service declaration, which is rejected. -/
def envServiceFail : Env String :=
  { ec2LookupVpc := .ok { id := "vpc-1".data }
    ec2NewSecurityGroup := fun _ => .ok { id := "sg-1".data }
    ecsNewCluster := .ok { arn := "cluster-arn".data }
    iamNewRole := fun _ => .ok { arn := "role-arn".data, name := "role".data }
    iamNewRolePolicyAttachment := fun _ => .ok ()
    ec2GetSubnetIds := fun _ => .ok { ids := ["subnet-a".data, "subnet-b".data] }
    elbNewLoadBalancer := fun _ =>
      .ok { arn := "lb-arn".data, dnsName := "lb-dns".data }
    elbNewTargetGroup := fun _ => .ok { arn := "tg-arn".data }
    elbNewListener := fun _ => .ok { arn := "listener-arn".data }
    ecrNewRepository :=
      .ok { repositoryUrl := "repo-url".data, registryId := "reg-1".data }
    dockerNewImage := fun _ => .ok { imageName := "img".data }
    ecsNewTaskDefinition := fun _ => .ok { arn := "task-arn".data }
    ecsNewService := fun _ => .error "service rejected" }

/-- Claim C1, code bug at the failing input: the claim (and the spec's
propagation policy) requires every failing declaration — the service
included — to abort the deployment with its error, and `main` guards
every step that way up to the task definition; but the error of
`ecs.NewService` is assigned to `err` and never checked, and `main`
returns `nil` unconditionally.  In an environment where only the
service declaration fails, the deployment therefore reports success. -/
theorem deploy_swallows_service_error :
    envServiceFail.ecsNewService
        (serviceArgs { arn := "cluster-arn".data } { arn := "task-arn".data }
          { ids := ["subnet-a".data, "subnet-b".data] } { id := "sg-1".data }
          { arn := "tg-arn".data })
      = .error "service rejected" ∧
    deploy envServiceFail
      = ([.vpcLookup, .securityGroup, .cluster, .taskExecRole, .taskExecPolicy,
          .subnetsLookup, .loadBalancer, .targetGroup, .listener, .repository,
          .image, .taskDefinition, .service],
         .ok ()) :=
  ⟨rfl, rfl⟩


/-! ## Claim C3: attachment and document agree on name and port -/

/-- Claim C3: in every valid build of the graph, the service's single
load-balancer attachment carries exactly the container name and port
that are embedded in the container-definition document: both are
`my-app` and 80. -/
theorem service_attachment_matches_containerDef
    (cluster : ClusterH) (appTask : TaskDefinitionH)
    (subnet : GetSubnetIdsResult) (securityGroup : SecurityGroupH)
    (targetGroup : TargetGroupH) (image : Str) :
    (serviceArgs cluster appTask subnet securityGroup targetGroup).loadBalancers
      = [{ targetGroupArn := targetGroup.arn, containerName := ContainerName,
           containerPort := 80 }] ∧
    extractNameField (containerDef image) = some ContainerName ∧
    extractContainerPortField (containerDef image) = some 80 ∧
    ContainerName = "my-app".data :=
  ⟨rfl, extractNameField_containerDef image,
   extractContainerPortField_containerDef image, rfl⟩

/-! ## Claim C4: the service is never realized before the listener -/

/-- Claim C4: under every scheduling permitted by the engine's
dependency-ordering guarantee, the service is realized after the
listener — the declaration pass adds an explicit `DependsOn` edge from
the service to the listener, although no service input references a
listener output (no data edge). -/
theorem service_never_before_listener (order : List Res)
    (h : ValidSchedule order) :
    order.indexOf Res.listener < order.indexOf Res.service ∧
    Res.listener ∉ dataDeps Res.service ∧
    Res.listener ∈ explicitDeps Res.service := by
  refine ⟨?_, by decide, by decide⟩
  exact (h.2.2 Res.service (h.2.1 Res.service (by decide))).2 Res.listener
    (by decide)

/-- Witness for claim C4: the source declaration order is a valid
schedule, and there the listener comes before the service. -/
theorem service_never_before_listener_witness :
    ValidSchedule allResources ∧
    allResources.indexOf Res.listener < allResources.indexOf Res.service :=
  ⟨by decide, (service_never_before_listener allResources (by decide)).1⟩

/-! ## Claim C5: shape of the container-definition document -/

/-- Claim C5: for every pushed image reference, the derived document is
a single-element sequence whose one element maps container port 80 to
host port 80 and whose image field is exactly the reference (the claim's
restriction to non-empty references is not needed: this holds for every
reference string). -/
theorem containerDef_single_element (image : Str) :
    containerDef image = renderContainerDefs (specContainerDefs image) ∧
    (specContainerDefs image).length = 1 ∧
    (∀ s ∈ specContainerDefs image, s.image = image ∧
      s.portMappings = [{ containerPort := 80, hostPort := 80,
                          protocol := "tcp".data }]) ∧
    extractImageField (containerDef image) = some image ∧
    extractContainerPortField (containerDef image) = some 80 ∧
    extractHostPortField (containerDef image) = some 80 := by
  refine ⟨containerDef_renders_spec image, rfl, ?_,
    extractImageField_containerDef image,
    extractContainerPortField_containerDef image,
    extractHostPortField_containerDef image⟩
  intro s hs
  simp only [specContainerDefs, List.mem_singleton] at hs
  subst hs
  exact ⟨rfl, rfl⟩

/-- Witness for claim C5, at the reference `nginx`. -/
theorem containerDef_single_element_witness :
    (specContainerDefs "nginx".data).length = 1 ∧
    ({ name := "my-app".data, image := "nginx".data,
       portMappings := [{ containerPort := 80, hostPort := 80,
                          protocol := "tcp".data }] } : ContainerSpec)
      ∈ specContainerDefs "nginx".data ∧
    ({ name := "my-app".data, image := "nginx".data,
       portMappings := [{ containerPort := 80, hostPort := 80,
                          protocol := "tcp".data }] } : ContainerSpec).image
      = "nginx".data ∧
    extractImageField (containerDef "nginx".data) = some "nginx".data :=
  ⟨(containerDef_single_element "nginx".data).2.1,
   by decide,
   ((containerDef_single_element "nginx".data).2.2.1 _ (by decide)).1,
   (containerDef_single_element "nginx".data).2.2.2.1⟩

/-! ## Claim C6: target group shape and subnet propagation -/

/-- Claim C6: whatever subnet list the network lookup returns, the
target group is declared with target type `ip`, port 80 and protocol
`HTTP`, and the service's network-configuration subnet list is exactly
the looked-up list, order preserved. -/
theorem targetGroup_and_service_subnets (vpc : LookupVpcResult)
    (cluster : ClusterH) (appTask : TaskDefinitionH)
    (subnet : GetSubnetIdsResult) (securityGroup : SecurityGroupH)
    (targetGroup : TargetGroupH) :
    (targetGroupArgs vpc).targetType = "ip".data ∧
    (targetGroupArgs vpc).port = 80 ∧
    (targetGroupArgs vpc).protocol = "HTTP".data ∧
    (serviceArgs cluster appTask subnet securityGroup
        targetGroup).networkConfiguration.subnets = subnet.ids ∧
    (loadBalancerArgs subnet securityGroup).subnets = subnet.ids := by
  refine ⟨rfl, rfl, rfl, ?_, ?_⟩
  · simp [serviceArgs, toPulumiStringArray_eq]
  · simp [loadBalancerArgs, toPulumiStringArray_eq]

/-! ## Claim C7: the desired count is the configured constant -/

/-- Claim C7: the declared service's desired count is exactly the
configured replica count 5, independent of every other input of the
declaration pass. -/
theorem service_desiredCount (cluster cluster' : ClusterH)
    (appTask appTask' : TaskDefinitionH) (subnet subnet' : GetSubnetIdsResult)
    (securityGroup securityGroup' : SecurityGroupH)
    (targetGroup targetGroup' : TargetGroupH) :
    (serviceArgs cluster appTask subnet securityGroup
        targetGroup).desiredCount = ReplicasCount ∧
    ReplicasCount = 5 ∧
    (serviceArgs cluster appTask subnet securityGroup
        targetGroup).desiredCount
      = (serviceArgs cluster' appTask' subnet' securityGroup'
          targetGroup').desiredCount :=
  ⟨rfl, rfl, rfl⟩

/-! ## Claim C8: the security-group rule set -/

/-- Claim C8: the security group has exactly one ingress rule — TCP on
port 80 (the service port) from `0.0.0.0/0` — and exactly one egress
rule — protocol `-1` (all protocols, the 0–0 port range meaning all
ports for protocol `-1`) to `0.0.0.0/0`. -/
theorem securityGroup_rules (vpc : LookupVpcResult) :
    (securityGroupArgs vpc).ingress
      = [{ protocol := "tcp".data, fromPort := 80, toPort := 80,
           cidrBlocks := ["0.0.0.0/0".data] }] ∧
    (securityGroupArgs vpc).egress
      = [{ protocol := "-1".data, fromPort := 0, toPort := 0,
           cidrBlocks := ["0.0.0.0/0".data] }] :=
  ⟨rfl, rfl⟩

/-! ## Claim C10: the image reference cannot break out of its field -/

/-- Claim C10: for every pushed image reference — including references
containing double quotes or backslashes — the reference is embedded as a
quoted, escaped string literal: the document is the fixed template
around the quoted reference, and reading the quoted literal back
recovers exactly the reference with the rest of the document untouched,
so the reference cannot break out of the image field's string value. -/
theorem image_embedding_wellformed (image rest : Str) :
    containerDef image = containerDefPre ++ (goQuote image ++ containerDefPost) ∧
    scanQuoted (goQuote image ++ rest) = some (image, rest) ∧
    extractImageField (containerDef image) = some image :=
  ⟨containerDef_split image, scanQuoted_goQuote image rest,
   extractImageField_containerDef image⟩

end EcsFargate
